import Mathlib

/-!
Verification of the spend pipeline of the BitGo `Wallet` object
(`src/wallet.js`): keychain resolution, credential unlocking,
transaction assembly, broadcast, and the `sendCoins` orchestrator.

External collaborators (HTTP transport, keychain service, decryption
primitive, transaction builder) are modelled as oracle functions bundled
in a `Collaborators` record; the functions of `wallet.js` are translated
line by line over these oracles.  Every network-bound call is recorded as
an event so that claims about which collaborators are invoked can be
stated as properties of the event trace.
-/

namespace BitGoWallet

/-- A keychain reference held on the wallet itself
(`wallet.private.keychains` entries): carries the xpub used to fetch the
full record from the keychain service. -/
structure KeychainRef where
  xpub : String
deriving Repr, DecidableEq

/-- A full keychain record as returned by the keychain service
(`bitgo.keychains().get`): xpub, optional encrypted private key blob,
and the decrypted private key, populated only transiently during a spend
operation (`keychain.xprv = ...` in `sendCoins`). -/
structure KeychainRecord where
  xpub : String
  encryptedXprv : Option String
  xprv : Option String
deriving Repr, DecidableEq

/-- The `private` sub-object of the wallet data (`wallet.private`);
the field is named `privateData` here because `private` is a Lean
keyword. -/
structure WalletPrivate where
  keychains : List KeychainRef
deriving Repr, DecidableEq

/-- The raw wallet data passed to the `Wallet` constructor.  Only the
fields the spend pipeline reads are modelled: the id and the optional
`private` sub-object. -/
structure WalletData where
  id : String
  privateData : Option WalletPrivate
deriving Repr, DecidableEq

/-- The constructed `Wallet` object: the stored wallet data and the
`this.keychains` field set by the constructor. -/
structure Wallet where
  wallet : WalletData
  keychains : List KeychainRef
deriving Repr, DecidableEq

/-- The `Wallet` constructor (`wallet.js` lines 15-22):
`this.keychains = []; if (wallet.private) { this.keychains =
wallet.private.keychains; }` -/
def mkWallet (data : WalletData) : Wallet :=
  { wallet := data
  , keychains :=
      match data.privateData with
      | some p => p.keychains
      | none => [] }

/-- Builder state produced by the external transaction builder: the
serialized transaction (accessor `tb.tx()`) and the fee it computed
(`tb.fee`). -/
structure BuilderState where
  tx : String
  fee : Int
deriving Repr, DecidableEq

/-- Body of the response of `POST /tx/send`. -/
structure SendResponse where
  transaction : String
  transactionHash : String
deriving Repr, DecidableEq

/-- The external collaborators of the spend pipeline, as oracle
functions:
* `fetchKeychain` - keychain service `get({xpub})`;
* `decrypt` - the decryption primitive `bitgo.decrypt({password,
  opaque})`, `none` models a throw (wrong passphrase or corrupt blob);
* `prepare` - `new TransactionBuilder(wallet, {address, amount},
  fee).prepare()`;
* `sign` - `tb.sign(keychain)`, `none` models the empty result of an
  incomplete signing;
* `txSend` - the remote endpoint behind `POST /tx/send`. -/
structure Collaborators where
  fetchKeychain : String → KeychainRecord
  decrypt : String → String → Option String
  prepare : String → Int → Option Int → BuilderState
  sign : BuilderState → KeychainRecord → Option BuilderState
  txSend : String → SendResponse

/-- One observable collaborator call made during an operation. -/
inductive Ev where
  | fetch (xpub : String)
  | prepareCall
  | signCall
  | broadcast (tx : String)
deriving Repr, DecidableEq

/-- Number of broadcast calls in a trace. -/
def broadcastCount : List Ev → Nat
  | [] => 0
  | .broadcast _ :: t => broadcastCount t + 1
  | _ :: t => broadcastCount t

/-- Number of transaction-builder calls (prepare or sign) in a trace. -/
def builderCallCount : List Ev → Nat
  | [] => 0
  | .prepareCall :: t => builderCallCount t + 1
  | .signCall :: t => builderCallCount t + 1
  | _ :: t => builderCallCount t

/-- Number of keychain-service fetches in a trace. -/
def fetchCount : List Ev → Nat
  | [] => 0
  | .fetch _ :: t => fetchCount t + 1
  | _ :: t => fetchCount t

/-- Outcome of keychain resolution: either a found record, or a
rejection carrying a message.  Modelled from the spec: the
`self.reject(msg, callback)` helper is not under src/ (it lives outside
`wallet.js`); per the spec it terminates the operation as a failure
(`NoKeychainFound`) carrying the given message, which we model as the
`rejected` constructor. -/
inductive ResolveResult where
  | found (keychain : KeychainRecord)
  | rejected (msg : String)
deriving Repr, DecidableEq

/-- The recursive candidate scan of `getEncryptedUserKeychain`
(`wallet.js` lines 176-192): if the index is past the end, reject with
the message below; otherwise fetch the record for the candidate xpub,
return it if `encryptedXprv` is present, and otherwise recurse on the
next index.  Structural recursion on the remaining candidate list
replaces the index recursion of the source; the second component records
the fetches made, in order. -/
def tryKeyChain (fetch : String → KeychainRecord) :
    List KeychainRef → ResolveResult × List Ev
  | [] => (.rejected "No encrypted keychains on this wallet.", [])
  | r :: rest =>
    let keychain := fetch r.xpub
    if keychain.encryptedXprv.isSome then
      (.found keychain, [Ev.fetch r.xpub])
    else
      let next := tryKeyChain fetch rest
      (next.1, Ev.fetch r.xpub :: next.2)

/-- `Wallet.prototype.getEncryptedUserKeychain` (`wallet.js` lines
171-195): runs the candidate scan from index 0 over the wallet's
keychain references. -/
def getEncryptedUserKeychain (o : Collaborators) (w : Wallet) :
    ResolveResult × List Ev :=
  tryKeyChain o.fetchKeychain w.keychains

/-- A dynamically-typed numeric request field: absent, present but not a
number, or a number (`typeof(x) != 'number'` distinguishes the first two
from the third). -/
inductive NumField where
  | missing
  | notNum
  | num (n : Int)
deriving Repr, DecidableEq

/-- The optional fee field of `createTransaction`: undefined is allowed
(`typeof(params.fee) != 'number' && typeof(params.fee) !=
'undefined'`). -/
inductive FeeField where
  | undef
  | notNum
  | num (n : Int)
deriving Repr, DecidableEq

/-- Whether the fee field passes the type check of `createTransaction`. -/
def feeValid : FeeField → Bool
  | .notNum => false
  | _ => true

/-- The fee value handed to the builder (undefined becomes no
override). -/
def feeVal : FeeField → Option Int
  | .num n => some n
  | _ => none

/-- Result of `createTransaction`: a synchronous throw, a resolved
`{tx, fee}` object, or a resolved undefined (`nothingProduced`) when the
sign step returned an empty builder state. -/
inductive CreateTxResult where
  | threw (msg : String)
  | nothingProduced
  | built (tx : String) (fee : Int)
deriving Repr, DecidableEq

/-- `Wallet.prototype.createTransaction` (`wallet.js` lines 208-235).
Validation mirrors the source: `common.validateParams(params,
['address'], ...)` (modelled from the spec: `common.validateParams` is
not under src/; per the spec a missing required field is a
`ValidationError`, modelled as a throw with message "Missing parameter");
then the combined type check on amount, fee and keychain throwing
"invalid argument"; then the positivity check on the amount.  On the
happy path the builder is asked to prepare and then sign; a present
builder state yields `{tx: tb.tx(), fee: tb.fee}` and an empty one
yields a resolved undefined. -/
def createTransaction (o : Collaborators) (address : Option String)
    (amount : NumField) (fee : FeeField) (keychain : Option KeychainRecord) :
    CreateTxResult × List Ev :=
  match address with
  | none => (.threw "Missing parameter", [])
  | some addr =>
    match amount, keychain with
    | .num amt, some kc =>
      if feeValid fee then
        if amt ≤ 0 then
          (.threw "must send positive number of Satoshis!", [])
        else
          let tb0 := o.prepare addr amt (feeVal fee)
          match o.sign tb0 kc with
          | some tb => (.built tb.tx tb.fee, [Ev.prepareCall, Ev.signCall])
          | none => (.nothingProduced, [Ev.prepareCall, Ev.signCall])
      else (.threw "invalid argument", [])
    | _, _ => (.threw "invalid argument", [])

/-- Result of `sendTransaction`: a throw, or the mapped response
`{tx: body.transaction, hash: body.transactionHash}`. -/
inductive SendTxResult where
  | threw (msg : String)
  | sent (tx : String) (hash : String)
deriving Repr, DecidableEq

/-- `Wallet.prototype.sendTransaction` (`wallet.js` lines 245-260):
validates that `tx` is present (modelled from the spec, see
`createTransaction`), posts it to `/tx/send`, and maps the response
fields into `{tx, hash}`. -/
def sendTransaction (o : Collaborators) (tx : Option String) :
    SendTxResult × List Ev :=
  match tx with
  | none => (.threw "Missing parameter", [])
  | some t =>
    let body := o.txSend t
    (.sent body.transaction body.transactionHash, [Ev.broadcast t])

/-- Outcome of `sendCoins`:
* `success` - the resolved `{tx, hash, fee}` object;
* `threw` - a synchronous throw raised before any asynchronous step;
* `rejected` - a rejected promise produced during the asynchronous
  chain (via the `reject` helper, or an error thrown inside a
  continuation);
* `typeError` - a runtime TypeError raised inside a continuation (field
  access on undefined). -/
inductive SpendOutcome where
  | success (tx : String) (hash : String) (fee : Int)
  | threw (msg : String)
  | rejected (msg : String)
  | typeError (msg : String)
deriving Repr, DecidableEq

/-- A spend request as passed to `sendCoins`: destination address,
amount, wallet passphrase.  Address and passphrase are optional strings
(checked by `validateParams`), the amount is a dynamically typed
numeric field. -/
structure SpendRequest where
  address : Option String
  amount : NumField
  walletPassphrase : Option String
deriving Repr, DecidableEq

/-- A complete run of `sendCoins`: its outcome, the trace of
collaborator calls it made, and the wallet object as it stands after
the operation (the source never assigns to `this.wallet` or
`this.keychains` inside the pipeline, so every branch below carries the
incoming wallet through unchanged). -/
structure SpendRun where
  outcome : SpendOutcome
  events : List Ev
  walletAfter : Wallet
deriving Repr, DecidableEq

/-- `Wallet.prototype.sendCoins` (`wallet.js` lines 277-322).
Step by step against the source:
* `validateParams(params, ['address', 'walletPassphrase'], ...)` -
  synchronous throw when either is missing (modelled from the spec, see
  `createTransaction`);
* `typeof(params.amount) != 'number'` - synchronous throw;
* `params.amount <= 0` - synchronous throw;
* `getEncryptedUserKeychain()` - a rejection there propagates;
* `keychain.xprv = bitgo.decrypt({password, opaque})` inside try/catch -
  a throw of the primitive becomes
  `reject("Unable to decrypt user keychain")`;
* `createTransaction({address, amount, keychain})` - a throw inside the
  continuation becomes a rejection; a resolved undefined makes the next
  continuation evaluate `transaction.tx` with `transaction` undefined,
  a TypeError; a resolved `{tx, fee}` object is stored in `transaction`;
* `sendTransaction({tx: transaction.tx})` - broadcast;
* the final continuation returns
  `{tx: result.tx, hash: result.hash, fee: transaction.fee}`. -/
def sendCoins (o : Collaborators) (w : Wallet) (req : SpendRequest) :
    SpendRun :=
  match req.address, req.walletPassphrase with
  | some addr, some pass =>
    match req.amount with
    | .missing => ⟨.threw "invalid argument for amount - number expected", [], w⟩
    | .notNum => ⟨.threw "invalid argument for amount - number expected", [], w⟩
    | .num amt =>
      if amt ≤ 0 then
        ⟨.threw "must send positive number of Satoshis!", [], w⟩
      else
        match getEncryptedUserKeychain o w with
        | (.rejected msg, evs) => ⟨.rejected msg, evs, w⟩
        | (.found keychain, evs) =>
          match (match keychain.encryptedXprv with
                 | some enc => o.decrypt pass enc
                 | none => none) with
          | none => ⟨.rejected "Unable to decrypt user keychain", evs, w⟩
          | some plain =>
            match createTransaction o (some addr) (.num amt) .undef
                (some { keychain with xprv := some plain }) with
            | (.threw msg, evs2) => ⟨.rejected msg, evs ++ evs2, w⟩
            | (.nothingProduced, evs2) =>
              ⟨.typeError "cannot read property tx of undefined", evs ++ evs2, w⟩
            | (.built tx fee, evs2) =>
              match sendTransaction o (some tx) with
              | (.threw msg, evs3) => ⟨.rejected msg, evs ++ evs2 ++ evs3, w⟩
              | (.sent rtx rhash, evs3) =>
                ⟨.success rtx rhash fee, evs ++ evs2 ++ evs3, w⟩
  | _, _ => ⟨.threw "Missing parameter", [], w⟩

/-- Keychain service of the worked scenario: `xpub1` resolves to a
record carrying `encryptedXprv = "enc1"`, everything else has no
encrypted material. -/
def demoFetch : String → KeychainRecord := fun x =>
  if x = "xpub1" then ⟨"xpub1", some "enc1", none⟩ else ⟨x, none, none⟩

/-- Collaborators of the worked scenario: decryption succeeds exactly
for passphrase "correct" on blob "enc1"; the builder prepares
`{tx: "deadbeef", fee: 1000}` and signs completely; the broadcast
endpoint answers `{transaction: "deadbeef", transactionHash: "h1"}`. -/
def demoCollab : Collaborators :=
  { fetchKeychain := demoFetch
  , decrypt := fun p e => if p = "correct" && e = "enc1" then some "xprv1" else none
  , prepare := fun _ _ _ => ⟨"deadbeef", 1000⟩
  , sign := fun tb _ => some tb
  , txSend := fun _ => ⟨"deadbeef", "h1"⟩ }

/-- Wallet data of the worked scenario: one keychain reference. -/
def demoWalletData : WalletData := ⟨"2Mxyz", some ⟨[⟨"xpub1"⟩]⟩⟩

/-- The constructed wallet of the worked scenario. -/
def demoWallet : Wallet := mkWallet demoWalletData

/-- Helper: the candidate scan accepts the first candidate whose fetched
record carries encrypted material, and its fetch trace is exactly the
candidates up to and including that one. -/
theorem tryKeyChain_first_match (fetch : String → KeychainRecord)
    (pre post : List KeychainRef) (k : KeychainRef)
    (hpre : ∀ r ∈ pre, (fetch r.xpub).encryptedXprv = none)
    (hk : (fetch k.xpub).encryptedXprv.isSome) :
    tryKeyChain fetch (pre ++ k :: post) =
      (.found (fetch k.xpub), (pre ++ [k]).map fun r => Ev.fetch r.xpub) := by
  induction pre with
  | nil => simp [tryKeyChain, hk]
  | cons r rest ih =>
    have hr : (fetch r.xpub).encryptedXprv = none := hpre r (by simp)
    have ih2 := ih fun s hs => hpre s (by simp [hs])
    simp [tryKeyChain, hr, ih2]

/-- Helper: when no fetched record carries encrypted material, the
candidate scan fetches every candidate in order and rejects. -/
theorem tryKeyChain_exhausted (fetch : String → KeychainRecord)
    (l : List KeychainRef)
    (h : ∀ r ∈ l, (fetch r.xpub).encryptedXprv = none) :
    tryKeyChain fetch l =
      (.rejected "No encrypted keychains on this wallet.",
       l.map fun r => Ev.fetch r.xpub) := by
  induction l with
  | nil => rfl
  | cons r rest ih =>
    have hr : (fetch r.xpub).encryptedXprv = none := h r (by simp)
    have ih2 := ih fun s hs => h s (by simp [hs])
    simp [tryKeyChain, hr, ih2]

/-- Helper: the candidate scan only ever calls the keychain service:
its trace contains no builder call and no broadcast. -/
theorem tryKeyChain_fetch_only (fetch : String → KeychainRecord)
    (l : List KeychainRef) :
    builderCallCount (tryKeyChain fetch l).2 = 0 ∧
      broadcastCount (tryKeyChain fetch l).2 = 0 := by
  induction l with
  | nil => exact ⟨rfl, rfl⟩
  | cons r rest ih =>
    by_cases hr : (fetch r.xpub).encryptedXprv.isSome
    · simp [tryKeyChain, hr, builderCallCount, broadcastCount]
    · simp [tryKeyChain, hr, builderCallCount, broadcastCount, ih]

/-- Helper: a full run of `sendCoins` on the decryption-failure path:
validation succeeds, resolution finds a keychain, the primitive rejects
the blob under the given passphrase, and the run terminates with the
fixed rejection message and only the resolution trace. -/
theorem sendCoins_decrypt_fail_run (o : Collaborators) (w : Wallet)
    (addr pass : String) (amt : Int) (k : KeychainRecord)
    (evs : List Ev) (enc : String)
    (hamt : 0 < amt)
    (hres : getEncryptedUserKeychain o w = (.found k, evs))
    (henc : k.encryptedXprv = some enc)
    (hdec : o.decrypt pass enc = none) :
    sendCoins o w ⟨some addr, .num amt, some pass⟩ =
      ⟨.rejected "Unable to decrypt user keychain", evs, w⟩ := by
  have hle : ¬ amt ≤ 0 := not_le.mpr hamt
  simp [sendCoins, hle, hres, henc, hdec]

/-- Helper: a full run of `sendCoins` on the success path: validation
succeeds, resolution finds a keychain, decryption succeeds, the builder
signs completely; the run broadcasts the assembled transaction and
returns the broadcast response fields together with the fee the builder
computed. -/
theorem sendCoins_success_run (o : Collaborators) (w : Wallet)
    (addr pass : String) (amt : Int) (k : KeychainRecord)
    (evs : List Ev) (enc plain : String) (tb : BuilderState)
    (hamt : 0 < amt)
    (hres : getEncryptedUserKeychain o w = (.found k, evs))
    (henc : k.encryptedXprv = some enc)
    (hdec : o.decrypt pass enc = some plain)
    (hsign : o.sign (o.prepare addr amt none) { k with xprv := some plain } = some tb) :
    sendCoins o w ⟨some addr, .num amt, some pass⟩ =
      ⟨.success (o.txSend tb.tx).transaction (o.txSend tb.tx).transactionHash tb.fee,
       evs ++ [Ev.prepareCall, Ev.signCall, Ev.broadcast tb.tx], w⟩ := by
  have hle : ¬ amt ≤ 0 := not_le.mpr hamt
  have hsign2 : o.sign (o.prepare addr amt none)
      { xpub := k.xpub, encryptedXprv := some enc, xprv := some plain } = some tb := by
    rw [← henc]; exact hsign
  simp [sendCoins, createTransaction, sendTransaction, feeValid, feeVal,
    hle, hres, henc, hdec, hsign2]

/-- Helper: no branch of `sendCoins` modifies the wallet object. -/
theorem sendCoins_walletAfter_eq (o : Collaborators) (w : Wallet)
    (req : SpendRequest) : (sendCoins o w req).walletAfter = w := by
  unfold sendCoins
  repeat' split
  all_goals rfl

/-- Collaborators for the resolver scenarios: `xpubB` and `xpubC` have
encrypted material, every other xpub has none; the remaining oracles are
irrelevant to resolution. -/
def abcCollab : Collaborators :=
  { fetchKeychain := fun x =>
      if x = "xpubB" then ⟨"xpubB", some "encB", none⟩
      else if x = "xpubC" then ⟨"xpubC", some "encC", none⟩
      else ⟨x, none, none⟩
  , decrypt := fun _ _ => none
  , prepare := fun _ _ _ => ⟨"", 0⟩
  , sign := fun tb _ => some tb
  , txSend := fun _ => ⟨"", ""⟩ }

/-- Wallet with candidates [A (no encryptedXprv), B (has), C (has)]. -/
def abcWallet : Wallet :=
  mkWallet ⟨"w", some ⟨[⟨"xpubA"⟩, ⟨"xpubB"⟩, ⟨"xpubC"⟩]⟩⟩

/-- Wallet whose only candidate has no encrypted material. -/
def noEncWallet : Wallet := mkWallet ⟨"w2", some ⟨[⟨"xpubA"⟩]⟩⟩

/-- C2: the resolver fetches candidate records one at a time in the
given order and returns the first fetched record whose encryptedXprv
field is present; its fetch trace is exactly the candidates up to and
including the match, so no later candidate is ever fetched. -/
theorem getEncryptedUserKeychain_returns_first_match (o : Collaborators)
    (w : Wallet) (pre post : List KeychainRef) (k : KeychainRef)
    (hw : w.keychains = pre ++ k :: post)
    (hpre : ∀ r ∈ pre, (o.fetchKeychain r.xpub).encryptedXprv = none)
    (hk : (o.fetchKeychain k.xpub).encryptedXprv.isSome) :
    getEncryptedUserKeychain o w =
      (.found (o.fetchKeychain k.xpub),
       (pre ++ [k]).map fun r => Ev.fetch r.xpub) := by
  rw [getEncryptedUserKeychain, hw]
  exact tryKeyChain_first_match o.fetchKeychain pre post k hpre hk

/-- C2 witness: on [A (no encryptedXprv), B (has), C (has)] the resolver
returns the record of B and fetches exactly A then B, never C. -/
theorem getEncryptedUserKeychain_returns_first_match_witness :
    getEncryptedUserKeychain abcCollab abcWallet =
      (.found ⟨"xpubB", some "encB", none⟩,
       [Ev.fetch "xpubA", Ev.fetch "xpubB"]) := by
  have h := getEncryptedUserKeychain_returns_first_match abcCollab abcWallet
    [⟨"xpubA"⟩] [⟨"xpubC"⟩] ⟨"xpubB"⟩ rfl (by decide) (by decide)
  exact h.trans (by rfl)

/-- C6: when no fetched candidate record carries encrypted private
material (in particular when the candidate list is empty), resolution
exhausts the sequence and rejects with the NoKeychainFound message. -/
theorem getEncryptedUserKeychain_exhausted_rejects (o : Collaborators)
    (w : Wallet)
    (h : ∀ r ∈ w.keychains, (o.fetchKeychain r.xpub).encryptedXprv = none) :
    getEncryptedUserKeychain o w =
      (.rejected "No encrypted keychains on this wallet.",
       w.keychains.map fun r => Ev.fetch r.xpub) :=
  tryKeyChain_exhausted o.fetchKeychain w.keychains h

/-- C6 witness: a wallet with a single non-encrypted candidate rejects
with the NoKeychainFound message after fetching it. -/
theorem getEncryptedUserKeychain_exhausted_rejects_witness :
    getEncryptedUserKeychain abcCollab noEncWallet =
      (.rejected "No encrypted keychains on this wallet.",
       [Ev.fetch "xpubA"]) := by
  have h := getEncryptedUserKeychain_exhausted_rejects abcCollab noEncWallet
    (by decide)
  exact h.trans (by rfl)

/-- C10: a Wallet constructed from data without a private field has an
empty keychain list, so resolution rejects with the NoKeychainFound
message without any fetch, and a spend that passes request validation
does the same. -/
theorem mkWallet_without_private_rejects (o : Collaborators)
    (d : WalletData) (addr pass : String) (amt : Int)
    (hd : d.privateData = none) (hamt : 0 < amt) :
    (mkWallet d).keychains = [] ∧
    getEncryptedUserKeychain o (mkWallet d) =
      (.rejected "No encrypted keychains on this wallet.", []) ∧
    sendCoins o (mkWallet d) ⟨some addr, .num amt, some pass⟩ =
      ⟨.rejected "No encrypted keychains on this wallet.", [], mkWallet d⟩ := by
  have hk : (mkWallet d).keychains = [] := by simp [mkWallet, hd]
  have hres : getEncryptedUserKeychain o (mkWallet d) =
      (.rejected "No encrypted keychains on this wallet.", []) := by
    rw [getEncryptedUserKeychain, hk]; rfl
  have hle : ¬ amt ≤ 0 := not_le.mpr hamt
  exact ⟨hk, hres, by simp [sendCoins, hle, hres]⟩

/-- C10 witness: the wallet built from data without a private field,
spent against the scenario collaborators, rejects with the
NoKeychainFound message and an empty trace. -/
theorem mkWallet_without_private_rejects_witness :
    (mkWallet ⟨"wNoPriv", none⟩).keychains = [] ∧
    getEncryptedUserKeychain demoCollab (mkWallet ⟨"wNoPriv", none⟩) =
      (.rejected "No encrypted keychains on this wallet.", []) ∧
    sendCoins demoCollab (mkWallet ⟨"wNoPriv", none⟩)
        ⟨some "1ABC", .num 100000, some "correct"⟩ =
      ⟨.rejected "No encrypted keychains on this wallet.", [],
       mkWallet ⟨"wNoPriv", none⟩⟩ :=
  mkWallet_without_private_rejects demoCollab ⟨"wNoPriv", none⟩
    "1ABC" "correct" 100000 rfl (by decide)

/-- C4: a spend request whose amount is a non-positive number throws the
AmountError message synchronously, and one whose amount is not a number
throws the ValidationError message synchronously; in both cases the
trace is empty, so no keychain fetch, builder call, or broadcast is
observed. -/
theorem sendCoins_invalid_amount_sync (o : Collaborators) (w : Wallet)
    (addr pass : String) :
    (∀ amt : Int, amt ≤ 0 →
      sendCoins o w ⟨some addr, .num amt, some pass⟩ =
        ⟨.threw "must send positive number of Satoshis!", [], w⟩) ∧
    sendCoins o w ⟨some addr, .notNum, some pass⟩ =
      ⟨.threw "invalid argument for amount - number expected", [], w⟩ := by
  refine ⟨fun amt hle => ?_, rfl⟩
  simp [sendCoins, hle]

/-- C4 witness: amount 0 throws the AmountError message and a non-number
amount throws the ValidationError message, both with an empty trace. -/
theorem sendCoins_invalid_amount_sync_witness :
    sendCoins demoCollab demoWallet ⟨some "1ABC", .num 0, some "correct"⟩ =
      ⟨.threw "must send positive number of Satoshis!", [], demoWallet⟩ ∧
    sendCoins demoCollab demoWallet ⟨some "1ABC", .notNum, some "correct"⟩ =
      ⟨.threw "invalid argument for amount - number expected", [], demoWallet⟩ :=
  ⟨(sendCoins_invalid_amount_sync demoCollab demoWallet "1ABC" "correct").1
      0 (by decide),
   (sendCoins_invalid_amount_sync demoCollab demoWallet "1ABC" "correct").2⟩

/-- C3: when the decryption primitive rejects the resolved keychain's
blob under the supplied passphrase, the spend terminates with the
DecryptionError message, and its trace is the resolution trace, which
contains no builder call and no broadcast. -/
theorem sendCoins_decrypt_failure_terminal (o : Collaborators) (w : Wallet)
    (addr pass : String) (amt : Int) (k : KeychainRecord)
    (evs : List Ev) (enc : String)
    (hamt : 0 < amt)
    (hres : getEncryptedUserKeychain o w = (.found k, evs))
    (henc : k.encryptedXprv = some enc)
    (hdec : o.decrypt pass enc = none) :
    sendCoins o w ⟨some addr, .num amt, some pass⟩ =
      ⟨.rejected "Unable to decrypt user keychain", evs, w⟩ ∧
    builderCallCount evs = 0 ∧ broadcastCount evs = 0 := by
  have hevs : (tryKeyChain o.fetchKeychain w.keychains).2 = evs := by
    rw [getEncryptedUserKeychain] at hres
    rw [hres]
  have hcounts := tryKeyChain_fetch_only o.fetchKeychain w.keychains
  rw [hevs] at hcounts
  exact ⟨sendCoins_decrypt_fail_run o w addr pass amt k evs enc hamt hres henc hdec,
    hcounts.1, hcounts.2⟩

/-- C3 witness: the worked scenario with passphrase "wrong" ends with
the DecryptionError message, after one fetch and nothing else. -/
theorem sendCoins_decrypt_failure_terminal_witness :
    sendCoins demoCollab demoWallet ⟨some "1ABC", .num 100000, some "wrong"⟩ =
      ⟨.rejected "Unable to decrypt user keychain", [Ev.fetch "xpub1"],
       demoWallet⟩ ∧
    builderCallCount [Ev.fetch "xpub1"] = 0 ∧
    broadcastCount [Ev.fetch "xpub1"] = 0 :=
  sendCoins_decrypt_failure_terminal demoCollab demoWallet "1ABC" "wrong"
    100000 ⟨"xpub1", some "enc1", none⟩ [Ev.fetch "xpub1"] "enc1"
    (by decide) rfl rfl rfl

/-- Collaborators of a second, unrelated decryption-failure run: a
different wallet, blob and passphrase, and a primitive failing for a
different internal reason; used to witness that the surfaced message is
identical across runs. -/
def otherCollab : Collaborators :=
  { fetchKeychain := fun x => ⟨x, some "blobZ", none⟩
  , decrypt := fun _ _ => none
  , prepare := fun _ _ _ => ⟨"", 0⟩
  , sign := fun tb _ => some tb
  , txSend := fun _ => ⟨"", ""⟩ }

/-- Wallet of the second decryption-failure run. -/
def otherWallet : Wallet := mkWallet ⟨"wZ", some ⟨[⟨"xpubZ"⟩]⟩⟩

/-- C8: any two spend runs on which the decryption primitive fails -
whatever the passphrases, blobs, wallets or collaborators involved -
surface the same outcome, the fixed generic DecryptionError message
with no passphrase-derived or primitive-internal detail. -/
theorem sendCoins_decrypt_failure_message_uniform
    (o1 o2 : Collaborators) (w1 w2 : Wallet) (a1 a2 p1 p2 : String)
    (n1 n2 : Int) (k1 k2 : KeychainRecord) (e1 e2 : List Ev)
    (enc1 enc2 : String)
    (h1 : 0 < n1) (h2 : 0 < n2)
    (hr1 : getEncryptedUserKeychain o1 w1 = (.found k1, e1))
    (hk1 : k1.encryptedXprv = some enc1)
    (hd1 : o1.decrypt p1 enc1 = none)
    (hr2 : getEncryptedUserKeychain o2 w2 = (.found k2, e2))
    (hk2 : k2.encryptedXprv = some enc2)
    (hd2 : o2.decrypt p2 enc2 = none) :
    (sendCoins o1 w1 ⟨some a1, .num n1, some p1⟩).outcome =
      (sendCoins o2 w2 ⟨some a2, .num n2, some p2⟩).outcome ∧
    (sendCoins o1 w1 ⟨some a1, .num n1, some p1⟩).outcome =
      .rejected "Unable to decrypt user keychain" := by
  rw [sendCoins_decrypt_fail_run o1 w1 a1 p1 n1 k1 e1 enc1 h1 hr1 hk1 hd1,
    sendCoins_decrypt_fail_run o2 w2 a2 p2 n2 k2 e2 enc2 h2 hr2 hk2 hd2]
  exact ⟨rfl, rfl⟩

/-- C8 witness: two unrelated failing runs (different wallet, blob and
passphrase) produce identical outcomes, the fixed generic message. -/
theorem sendCoins_decrypt_failure_message_uniform_witness :
    (sendCoins demoCollab demoWallet
        ⟨some "1ABC", .num 100000, some "wrong"⟩).outcome =
      (sendCoins otherCollab otherWallet
        ⟨some "1XYZ", .num 5, some "hunter2"⟩).outcome ∧
    (sendCoins demoCollab demoWallet
        ⟨some "1ABC", .num 100000, some "wrong"⟩).outcome =
      .rejected "Unable to decrypt user keychain" :=
  sendCoins_decrypt_failure_message_uniform demoCollab otherCollab
    demoWallet otherWallet "1ABC" "1XYZ" "wrong" "hunter2" 100000 5
    ⟨"xpub1", some "enc1", none⟩ ⟨"xpubZ", some "blobZ", none⟩
    [Ev.fetch "xpub1"] [Ev.fetch "xpubZ"] "enc1" "blobZ"
    (by decide) (by decide) rfl rfl rfl rfl rfl rfl

/-- C5: on a successful spend, the assembler fixes the fee during
`createTransaction`, and the final outcome carries exactly that fee;
the broadcast response (quantified here through the arbitrary `txSend`
oracle) contributes only the tx and hash fields, never the fee. -/
theorem sendCoins_fee_fixed_at_assembly (o : Collaborators) (w : Wallet)
    (addr pass : String) (amt : Int) (k : KeychainRecord)
    (evs : List Ev) (enc plain : String) (tb : BuilderState)
    (hamt : 0 < amt)
    (hres : getEncryptedUserKeychain o w = (.found k, evs))
    (henc : k.encryptedXprv = some enc)
    (hdec : o.decrypt pass enc = some plain)
    (hsign : o.sign (o.prepare addr amt none) { k with xprv := some plain } = some tb) :
    (createTransaction o (some addr) (.num amt) .undef
        (some { k with xprv := some plain })).1 = .built tb.tx tb.fee ∧
    (sendCoins o w ⟨some addr, .num amt, some pass⟩).outcome =
      .success (o.txSend tb.tx).transaction (o.txSend tb.tx).transactionHash
        tb.fee := by
  have hle : ¬ amt ≤ 0 := not_le.mpr hamt
  constructor
  · simp [createTransaction, feeValid, feeVal, hle, hsign]
  · rw [sendCoins_success_run o w addr pass amt k evs enc plain tb
      hamt hres henc hdec hsign]

/-- C5 witness: in the worked scenario the assembler fixes fee 1000 and
the final outcome carries fee 1000 even though the broadcast response
body has no say in it. -/
theorem sendCoins_fee_fixed_at_assembly_witness :
    (createTransaction demoCollab (some "1ABC") (.num 100000) .undef
        (some ⟨"xpub1", some "enc1", some "xprv1"⟩)).1 =
      .built "deadbeef" 1000 ∧
    (sendCoins demoCollab demoWallet
        ⟨some "1ABC", .num 100000, some "correct"⟩).outcome =
      .success "deadbeef" "h1" 1000 := by
  have h := sendCoins_fee_fixed_at_assembly demoCollab demoWallet "1ABC"
    "correct" 100000 ⟨"xpub1", some "enc1", none⟩ [Ev.fetch "xpub1"]
    "enc1" "xprv1" ⟨"deadbeef", 1000⟩ (by decide) rfl rfl rfl rfl
  exact ⟨h.1.trans (by rfl), h.2.trans (by rfl)⟩

/-- C7: the worked scenario end to end: one keychain with encrypted
material, request for 100000 satoshis under the correct passphrase,
assembler output tx "deadbeef" with fee 1000, broadcast response
transaction "deadbeef" and hash "h1"; sendCoins returns exactly
tx "deadbeef", hash "h1", fee 1000, after one fetch, one prepare, one
sign and one broadcast. -/
theorem sendCoins_demo_scenario :
    sendCoins demoCollab demoWallet ⟨some "1ABC", .num 100000, some "correct"⟩ =
      ⟨.success "deadbeef" "h1" 1000,
       [Ev.fetch "xpub1", Ev.prepareCall, Ev.signCall, Ev.broadcast "deadbeef"],
       demoWallet⟩ := rfl

/-- The scenario collaborators with a sign step that reports no
produced transaction (an empty result). -/
def noSignCollab : Collaborators := { demoCollab with sign := fun _ _ => none }

/-- C1 (code divergence): when the sign step reports no transaction,
`createTransaction` resolves with no result and no error, but
`sendCoins` then dereferences the missing transaction object and the
run terminates with a TypeError - an error outcome, not the "no result
and no error" terminal state the specification prescribes.  The
broadcast endpoint is indeed never invoked. -/
theorem sendCoins_sign_empty_type_error :
    (createTransaction noSignCollab (some "1ABC") (.num 100000) .undef
        (some ⟨"xpub1", some "enc1", some "xprv1"⟩)).1 = .nothingProduced ∧
    sendCoins noSignCollab demoWallet
        ⟨some "1ABC", .num 100000, some "correct"⟩ =
      ⟨.typeError "cannot read property tx of undefined",
       [Ev.fetch "xpub1", Ev.prepareCall, Ev.signCall], demoWallet⟩ ∧
    broadcastCount [Ev.fetch "xpub1", Ev.prepareCall, Ev.signCall] = 0 :=
  ⟨rfl, rfl, rfl⟩

/-- C9: no spend run retains key material in state that survives the
operation: the wallet object (the only state outliving a run, and a
structure with no field for decrypted material) is unchanged by every
run, successful or failed, and consequently a subsequent spend behaves
exactly as it would on the untouched wallet - nothing is cached across
requests. -/
theorem sendCoins_no_key_retained (o : Collaborators) (w : Wallet)
    (req1 req2 : SpendRequest) :
    (sendCoins o w req1).walletAfter = w ∧
    sendCoins o (sendCoins o w req1).walletAfter req2 =
      sendCoins o w req2 := by
  refine ⟨sendCoins_walletAfter_eq o w req1, ?_⟩
  rw [sendCoins_walletAfter_eq o w req1]

end BitGoWallet
